import Mathlib

/-!
# Verification of the video-generation orchestration pipeline

Shallow embedding of `src/lib/video-generation.ts`: the credential
resolution (`pickVideoApiKey`), the task patch store (`updateVideoTask`
over the app-data document), the retrying HTTP layer (`fetchJson`), the
per-task submit/poll/download state machine (`processVideoTask`) and the
batch entry point (`generateVideos`).

External effects (the axios/fetch network calls, the filesystem download
and the wall clock) are abstracted as oracles passed to the embedded
functions; the functions return the trace of store writes and call counts
that the real code would perform, so that selection, retry, progress and
frame properties can be stated over those traces.
-/

namespace VideoGen

/-- JavaScript truthiness of a possibly-absent string: `undefined`, `null`
and the empty string are falsy, every other string is truthy. -/
def jsTruthy : Option String → Bool
  | none => false
  | some s => !s.isEmpty

/-- A video task record, with the fields read or written by
`video-generation.ts` (the `VideoTask` type itself lives in the absent
`lib/types.ts`; the field set is taken from every use site in the
orchestrator and from the spec's data model). Optional TypeScript fields
are `Option`s. -/
structure VideoTask where
  number : String
  prompt : String
  imageUrls : Option (List String) := none
  aspectRatio : Option String := none
  watermark : Option String := none
  callbackUrl : Option String := none
  seeds : Option String := none
  enableFallback : Option Bool := none
  enableTranslation : Option Bool := none
  status : String
  progress : Option Nat := none
  errorMsg : Option String := none
  localPath : Option String := none
  remoteUrl : Option String := none
  actualFilename : Option String := none
  createdAt : String := ""
  updatedAt : String := ""
deriving Repr, DecidableEq

/-- A `Partial<VideoTask>` patch as passed to `updateVideoTask`: a field
that is `some v` is present in the patch object and overwrites the task's
field with `v`; a field that is `none` is absent and leaves the task's
field alone. (`updatedAt` is never part of a patch: `updateVideoTask`
stamps it itself.) -/
structure VideoTaskPatch where
  number : Option String := none
  prompt : Option String := none
  imageUrls : Option (List String) := none
  aspectRatio : Option String := none
  watermark : Option String := none
  callbackUrl : Option String := none
  seeds : Option String := none
  enableFallback : Option Bool := none
  enableTranslation : Option Bool := none
  status : Option String := none
  progress : Option Nat := none
  errorMsg : Option String := none
  localPath : Option String := none
  remoteUrl : Option String := none
  actualFilename : Option String := none
  createdAt : Option String := none
deriving Repr, DecidableEq

/-- `Object.assign` semantics for one optional field: a value present in
the patch wins, otherwise the old value stays. -/
def patched (new : Option α) (old : α) : α :=
  match new with
  | some v => v
  | none => old

/-- `Object.assign(task, patch, { updatedAt: now })` from
`updateVideoTask` (video-generation.ts line 50). -/
def VideoTask.applyPatch (t : VideoTask) (p : VideoTaskPatch) (now : String) : VideoTask where
  number := patched p.number t.number
  prompt := patched p.prompt t.prompt
  imageUrls := patched (p.imageUrls.map some) t.imageUrls
  aspectRatio := patched (p.aspectRatio.map some) t.aspectRatio
  watermark := patched (p.watermark.map some) t.watermark
  callbackUrl := patched (p.callbackUrl.map some) t.callbackUrl
  seeds := patched (p.seeds.map some) t.seeds
  enableFallback := patched (p.enableFallback.map some) t.enableFallback
  enableTranslation := patched (p.enableTranslation.map some) t.enableTranslation
  status := patched p.status t.status
  progress := patched (p.progress.map some) t.progress
  errorMsg := patched (p.errorMsg.map some) t.errorMsg
  localPath := patched (p.localPath.map some) t.localPath
  remoteUrl := patched (p.remoteUrl.map some) t.remoteUrl
  actualFilename := patched (p.actualFilename.map some) t.actualFilename
  createdAt := patched p.createdAt t.createdAt
  updatedAt := now

/-- An entry of `data.keyLibrary` as consumed by `pickVideoApiKey`
(name, optional platform label, secret). -/
structure KeyEntry where
  name : String
  platform : Option String := none
  apiKey : String
deriving Repr, DecidableEq

/-- `data.videoSettings` as consumed by the orchestrator. -/
structure VideoSettings where
  apiKey : Option String := none
  savePath : String := ""
deriving Repr, DecidableEq

/-- `data.apiSettings` as consumed by the orchestrator. -/
structure ApiSettings where
  threadCount : Option Nat := none
deriving Repr, DecidableEq

/-- The app-data document (`AppData` lives in the absent `lib/types.ts`;
fields are the ones the orchestrator reads). `keyLibrary` is the list of
entries in `Object.values` (insertion) order. -/
structure AppData where
  apiSettings : ApiSettings := {}
  videoSettings : VideoSettings := {}
  keyLibrary : List KeyEntry := []
  videoTasks : List VideoTask := []
deriving Repr, DecidableEq

/-- Modelled from the spec: `updateAppData` (from `lib/data-store.ts`,
absent from the sources) performs a read-modify-write on the app-data
document — "Every transition is a read-modify-write against the Task
Record Store" (§4.3): it reads the current document, applies the mutator
and persists the result, which becomes the new store state. -/
def updateAppData (store : AppData) (f : AppData → AppData) : AppData :=
  f store

/-- Patch the first task in the list whose `number` matches (`tasks.find`
returns the first match, which is then mutated in place); when no task
matches nothing changes. -/
def patchFirstTask (number : String) (p : VideoTaskPatch) (now : String) :
    List VideoTask → List VideoTask
  | [] => []
  | t :: ts =>
    if t.number = number then t.applyPatch p now :: ts
    else t :: patchFirstTask number p now ts

/-- The mutator passed to `updateAppData` by `updateVideoTask`
(video-generation.ts lines 46–54). -/
def updateVideoTaskMutator (number : String) (p : VideoTaskPatch) (now : String)
    (data : AppData) : AppData :=
  { data with videoTasks := patchFirstTask number p now data.videoTasks }

/-- `updateVideoTask(number, patch)`: the store state after the call,
with `now` standing for `new Date().toISOString()`. -/
def updateVideoTask (store : AppData) (number : String) (p : VideoTaskPatch)
    (now : String) : AppData :=
  updateAppData store (updateVideoTaskMutator number p now)

/-- The provider-platform aliases accepted by `pickVideoApiKey`
(video-generation.ts line 36). -/
def kieAliases : List String := ["kie.ai", "kie", "kei", "kieai"]

/-- `String.prototype.trim()` as applied to the credential strings:
strip whitespace from both ends (executable model over the character
list, so that concrete instances evaluate). -/
def jsTrim (s : String) : String :=
  ⟨((s.data.dropWhile Char.isWhitespace).reverse.dropWhile Char.isWhitespace).reverse⟩

/-- `String.prototype.toLowerCase()` as applied to the platform labels
(the compared alias strings are ASCII). -/
def jsToLower (s : String) : String :=
  ⟨s.data.map Char.toLower⟩

/-- The predicate of the `find` on line 34: the entry's platform,
lowercased (with `?? ''` for a missing platform), is a known alias. -/
def kieMatch (item : KeyEntry) : Bool :=
  kieAliases.contains (jsToLower (item.platform.getD ""))

/-- `pickVideoApiKey` (video-generation.ts lines 24–44): environment key
first, then `videoSettings.apiKey`, then the first key-library entry with
a recognised platform alias; `none` models the thrown
`未配置 KIE.AI 的 API 密钥` error. Returns (apiKey, source). -/
def pickVideoApiKey (envKey : Option String) (data : AppData) :
    Option (String × String) :=
  if !(jsTrim (envKey.getD "")).isEmpty then
    some (jsTrim (envKey.getD ""), "environment")
  else if !(jsTrim (data.videoSettings.apiKey.getD "")).isEmpty then
    some (jsTrim (data.videoSettings.apiKey.getD ""), "videoSettings")
  else
    match data.keyLibrary.find? kieMatch with
    | some candidate => some (candidate.apiKey, candidate.name)
    | none => none

/-- Eligibility filter from `generateVideos`
(video-generation.ts line 273): `['等待中', '失败'].includes(item.status)`. -/
def eligibleStatus (t : VideoTask) : Bool :=
  t.status = "等待中" || t.status = "失败"

/-- Target selection from `generateVideos` (video-generation.ts lines
271–274): if a non-empty `numbers` list is given, keep tasks whose number
is in it, otherwise take all tasks; then keep only eligible statuses. -/
def selectTargets (numbers : Option (List String)) (tasks : List VideoTask) :
    List VideoTask :=
  let filtered :=
    match numbers with
    | some ns =>
      if ns.length ≠ 0 then tasks.filter (fun (t : VideoTask) => ns.contains t.number)
      else tasks
    | none => tasks
  filtered.filter eligibleStatus

/-! ## The retrying HTTP layer (`fetchJson`, video-generation.ts 56–132) -/

/-- Outcome of one `axios(...)` call as observed by `fetchJson`.
Because of `validateStatus: (status) => status < 500`, a response with
status below 500 resolves (`resolved`); a 5xx response rejects with
`error.response` set (`errResponse`). The remaining constructors are the
error classes `fetchJson` distinguishes: `ECONNABORTED`, `ECONNRESET`,
an axios error without a response, and a non-axios error. -/
inductive AxiosResult where
  | resolved (status : Nat) (body : String)
  | econnaborted
  | econnreset
  | errResponse (status : Nat) (body : String)
  | errNoResponse (code : String) (msg : String)
  | plainError (msg : String)
deriving Repr, DecidableEq

deriving instance DecidableEq for Except

/-- Result of a `fetchJson` run: the returned body or the thrown error
message, together with the number of `axios` calls actually made. -/
structure FetchRun where
  result : Except String String
  calls : Nat
deriving Repr, DecidableEq

/-- One retry-loop step bookkeeping: the recursive run after a backoff,
with this attempt's call counted. -/
def FetchRun.afterRetry (r : FetchRun) : FetchRun :=
  { result := r.result, calls := r.calls + 1 }

/-- The `for attempt in 1..retries` loop of `fetchJson`. `fuel` is the
number of attempts still allowed (`retries - attempt + 1`); running out
of fuel is the loop exiting, which throws `lastError ?? '请求失败'`.
The 4xx branch (lines 80–83) throws a plain `Error`, which the
surrounding `catch` treats as a generic error: it retries while
`attempt < retries` (line 122) and rethrows on the last attempt. -/
def fetchJsonLoop (oracle : Nat → AxiosResult) (timeoutMs retries : Nat) :
    Nat → Nat → Option String → FetchRun
  | 0, _, lastError =>
    { result := .error (lastError.getD "请求失败"), calls := 0 }
  | fuel + 1, attempt, _ =>
    match oracle attempt with
    | .resolved status body =>
      if status ≥ 400 then
        let e := s!"HTTP {status}: {body}"
        if attempt < retries then
          (fetchJsonLoop oracle timeoutMs retries fuel (attempt + 1) (some e)).afterRetry
        else { result := .error e, calls := 1 }
      else { result := .ok body, calls := 1 }
    | .econnaborted =>
      { result := .error s!"请求超时 ({timeoutMs}ms)", calls := 1 }
    | .econnreset =>
      if attempt < retries then
        (fetchJsonLoop oracle timeoutMs retries fuel (attempt + 1)
          (some "ECONNRESET")).afterRetry
      else
        { result := .error
            s!"连接被服务器重置，已重试{retries}次。可能原因：图片URL域名被阻止（建议使用postimg.cc等图床）",
          calls := 1 }
    | .errResponse status body =>
      if status ≥ 500 ∧ attempt < retries then
        (fetchJsonLoop oracle timeoutMs retries fuel (attempt + 1)
          (some s!"HTTP {status}: {body}")).afterRetry
      else { result := .error s!"HTTP {status}: {body}", calls := 1 }
    | .errNoResponse code msg =>
      { result := .error s!"网络请求失败 ({code}): {msg}", calls := 1 }
    | .plainError msg =>
      if attempt < retries then
        (fetchJsonLoop oracle timeoutMs retries fuel (attempt + 1) (some msg)).afterRetry
      else { result := .error msg, calls := 1 }

/-- `fetchJson(url, config, timeoutMs, retries)` driven by an oracle
giving each attempt's axios outcome. -/
def fetchJson (oracle : Nat → AxiosResult) (timeoutMs : Nat) (retries : Nat) :
    FetchRun :=
  fetchJsonLoop oracle timeoutMs retries retries 1 none

/-! ## The per-task state machine (`processVideoTask`, lines 153–266) -/

/-- The submit response as consumed by `processVideoTask`:
`generateResponse?.data?.taskId` folded into one optional field, plus the
JSON serialization of the whole response (used in diagnostics). -/
structure SubmitResponse where
  taskId : Option String := none
  raw : String := ""
deriving Repr, DecidableEq

/-- `pollData.data` payload fields read by the poll loop. -/
structure PollDataPayload where
  successFlag : Option Int := none
  resultUrls : Option (List String) := none
  errorMessage : Option String := none
deriving Repr, DecidableEq

/-- A decoded poll response: `code` and the optional `data` payload. -/
structure PollResponse where
  code : Option Int := none
  data : Option PollDataPayload := none
deriving Repr, DecidableEq

/-- Line 154: `{ status: '生成中', errorMsg: '', progress: 5 }`. -/
def startPatch : VideoTaskPatch :=
  { status := some "生成中", errorMsg := some "", progress := some 5 }

/-- Line 199: `{ status: '任务已提交，等待处理...', progress: 15 }`. -/
def submittedPatch : VideoTaskPatch :=
  { status := some "任务已提交，等待处理...", progress := some 15 }

/-- Lines 221–223: poll response with `code !== 200`; status only. -/
def pollWaitPatch (n : Nat) : VideoTaskPatch :=
  { status := some s!"生成中... (轮询 {n})" }

/-- Lines 250–253: still generating; status plus capped progress. -/
def pollProgressPatch (n : Nat) : VideoTaskPatch :=
  { status := some s!"生成中... (轮询 {n})", progress := some (min 90 (15 + n * 2)) }

/-- Line 229: `{ status: '生成完成，开始下载...', progress: 95 }`. -/
def downloadingPatch : VideoTaskPatch :=
  { status := some "生成完成，开始下载...", progress := some 95 }

/-- Lines 235–242: the terminal success write. -/
def successPatch (localPath remoteUrl actualFilename : String) : VideoTaskPatch :=
  { status := some "成功", progress := some 100, localPath := some localPath,
    remoteUrl := some remoteUrl, actualFilename := some actualFilename,
    errorMsg := some "" }

/-- Line 258: `(error as Error).message || String(error)` — an `Error`
with an empty message stringifies to `"Error"`. -/
def errorText (m : String) : String :=
  if m.isEmpty then "Error" else m

/-- Lines 261–264: the terminal failure write (no progress field). -/
def failPatch (m : String) : VideoTaskPatch :=
  { status := some "失败", errorMsg := some (errorText m) }

/-- Line 203: `maxPollTimes = 120`. -/
def maxPollTimes : Nat := 120

/-- Line 204: `pollInterval = 5000` (milliseconds). -/
def pollInterval : Nat := 5000

/-- The poll-timeout error thrown on line 256. -/
def pollTimeoutMsg : String := "轮询超时，未在预期时间内完成视频生成"

/-- Result of the poll loop: the store writes it performed, the number of
poll HTTP calls made, and `some e` when it threw error `e` (caught by the
task's `catch`), `none` when it returned after the success write. -/
structure PollLoopRun where
  updates : List VideoTaskPatch
  calls : Nat
  outcome : Option String
deriving Repr, DecidableEq

/-- Bookkeeping for a loop iteration that wrote `patch` and continued:
the patch is prepended to the remaining iterations' writes and the
iteration's poll call is counted. -/
def PollLoopRun.afterIteration (patch : VideoTaskPatch) (rest : PollLoopRun) :
    PollLoopRun :=
  { updates := patch :: rest.updates, calls := rest.calls + 1, outcome := rest.outcome }

/-- The `while (pollCount < maxPollTimes)` loop (lines 206–254), with the
task's download folded in (lines 228–243). `polls n` is the decoded
response of the `n`-th poll fetch (`.error` when the fetch itself threw),
`download u` the outcome of `downloadVideo(u, ...)`. `fuel` counts the
iterations remaining (`maxPollTimes - pollCount`); exhausting it is the
loop exiting, which throws the timeout error (line 256). -/
def pollLoop (polls : Nat → Except String PollResponse)
    (download : String → Except String (String × String)) :
    Nat → Nat → PollLoopRun
  | 0, _ => { updates := [], calls := 0, outcome := some pollTimeoutMsg }
  | fuel + 1, pc =>
    match polls (pc + 1) with
    | .error e => { updates := [], calls := 1, outcome := some e }
    | .ok resp =>
      if resp.code ≠ some 200 then
        (pollLoop polls download fuel (pc + 1)).afterIteration (pollWaitPatch (pc + 1))
      else if (resp.data.getD {}).successFlag = some 1 then
        match (resp.data.getD {}).resultUrls.getD [] with
        | [] =>
          { updates := [downloadingPatch], calls := 1,
            outcome := some "查询接口未返回视频链接" }
        | u :: _ =>
          match download u with
          | .error e =>
            { updates := [downloadingPatch], calls := 1, outcome := some e }
          | .ok (lp, fn) =>
            { updates := [downloadingPatch, successPatch lp u fn], calls := 1,
              outcome := none }
      else if jsTruthy (resp.data.getD {}).errorMessage then
        { updates := [], calls := 1,
          outcome := some ((resp.data.getD {}).errorMessage.getD "") }
      else
        (pollLoop polls download fuel (pc + 1)).afterIteration
          (pollProgressPatch (pc + 1))

/-- Result of one `processVideoTask` run: the sequence of
`updateVideoTask` patches it wrote (in order) and the number of poll
HTTP calls it made. The function is total: every error raised inside the
`try` is absorbed by the `catch` into a final failure write, so nothing
propagates to the batch caller. -/
structure TaskRun where
  updates : List VideoTaskPatch
  pollCalls : Nat
deriving Repr, DecidableEq

/-- The diagnostic thrown on line 196 when the submit response carries no
(truthy) `data.taskId`. -/
def noTaskIdMsg (raw : String) : String :=
  "生成接口未返回 taskId。响应结构: " ++ raw.take 500

/-- Wrap a finished poll loop into the task's full trace: the initial and
post-submit writes come first, and a loop that threw is closed by the
`catch` block's failure write. -/
def afterSubmitRun (loop : PollLoopRun) : TaskRun :=
  match loop.outcome with
  | some e =>
    { updates := startPatch :: submittedPatch :: (loop.updates ++ [failPatch e]),
      pollCalls := loop.calls }
  | none =>
    { updates := startPatch :: submittedPatch :: loop.updates,
      pollCalls := loop.calls }

/-- `processVideoTask` (lines 153–266). `submit` is the outcome of the
submit `fetchJson` (`.error` when it threw), `polls` and `download` the
oracles of the poll loop. -/
def processVideoTask (submit : Except String SubmitResponse)
    (polls : Nat → Except String PollResponse)
    (download : String → Except String (String × String)) : TaskRun :=
  match submit with
  | .error e => { updates := [startPatch, failPatch e], pollCalls := 0 }
  | .ok resp =>
    if jsTruthy resp.taskId then
      afterSubmitRun (pollLoop polls download maxPollTimes 0)
    else
      { updates := [startPatch, failPatch (noTaskIdMsg resp.raw)], pollCalls := 0 }

/-- The task record after a run's writes have been applied in order
(each write is an `updateVideoTask` merge on that task). -/
def applyUpdates (t : VideoTask) (ps : List VideoTaskPatch) (now : String) : VideoTask :=
  ps.foldl (fun acc p => acc.applyPatch p now) t

/-- The progress values actually written by a sequence of patches. -/
def progressWrites (ps : List VideoTaskPatch) : List Nat :=
  ps.filterMap (fun p => p.progress)

/-! ## The batch entry point (`generateVideos`, lines 268–287) -/

/-- The result value of `generateVideos`: the returned object
(`success: false` with a message, or `success: true`), or the error it
lets propagate (`thrown`). -/
inductive GenResult where
  | failure (message : String)
  | ok
  | thrown (message : String)
deriving Repr, DecidableEq

/-- Trace of one `generateVideos` call: its result, whether
`pickVideoApiKey` was invoked, and the per-task runs (task number paired
with that task's writes and poll-call count). An empty `taskRuns` means
no store write and no network call was made. -/
structure BatchRun where
  result : GenResult
  pickedKey : Bool
  taskRuns : List (String × TaskRun)
deriving Repr, DecidableEq

/-- The concurrency limit `Math.max(1, apiSettings.threadCount ?? 1)`
(line 282). -/
def threadLimit (s : ApiSettings) : Nat :=
  max 1 (s.threadCount.getD 1)

/-- `generateVideos` (lines 268–287), with the per-task network effects
supplied by oracles indexed by the task. Eligible targets are selected
first; if none, the call returns immediately; otherwise the credential is
resolved (aborting the batch when none is configured) and every target is
processed. -/
def generateVideos (envKey : Option String) (data : AppData)
    (numbers : Option (List String))
    (submitO : VideoTask → Except String SubmitResponse)
    (pollO : VideoTask → Nat → Except String PollResponse)
    (downloadO : VideoTask → String → Except String (String × String)) : BatchRun :=
  let targets := selectTargets numbers data.videoTasks
  if targets.isEmpty then
    { result := .failure "没有需要生成的视频任务", pickedKey := false, taskRuns := [] }
  else
    match pickVideoApiKey envKey data with
    | none =>
      { result := .thrown "未配置 KIE.AI 的 API 密钥", pickedKey := true, taskRuns := [] }
    | some _ =>
      { result := .ok, pickedKey := true,
        taskRuns := targets.map (fun t =>
          (t.number, processVideoTask (submitO t) (pollO t) (downloadO t))) }

/-! ## Auxiliary predicates and lemmas -/

/-- A poll response that reports neither success nor an explicit provider
error: either `code !== 200`, or the payload has `successFlag !== 1` and
no truthy `errorMessage`. -/
def stillProcessing (resp : PollResponse) : Prop :=
  resp.code ≠ some 200 ∨
    ((resp.data.getD {}).successFlag ≠ some 1 ∧
      jsTruthy (resp.data.getD {}).errorMessage = false)

/-- A poll fetch that neither throws nor reports success or an explicit
provider error. -/
def stillProcessingE (r : Except String PollResponse) : Prop :=
  ∃ resp, r = .ok resp ∧ stillProcessing resp

theorem applyUpdates_append (t : VideoTask) (ps qs : List VideoTaskPatch)
    (now : String) :
    applyUpdates t (ps ++ qs) now = applyUpdates (applyUpdates t ps now) qs now := by
  simp [applyUpdates, List.foldl_append]

theorem patchFirstTask_no_match (number : String) (p : VideoTaskPatch)
    (now : String) :
    ∀ ts : List VideoTask, (∀ u ∈ ts, u.number ≠ number) →
      patchFirstTask number p now ts = ts := by
  intro ts
  induction ts with
  | nil => intro _; rfl
  | cons t ts ih =>
    intro h
    have ht : t.number ≠ number := h t (by simp)
    simp only [patchFirstTask, if_neg ht]
    rw [ih (fun u hu => h u (by simp [hu]))]

theorem patchFirstTask_first_match (number : String) (p : VideoTaskPatch)
    (now : String) :
    ∀ (pre : List VideoTask) (t : VideoTask) (post : List VideoTask),
      (∀ u ∈ pre, u.number ≠ number) → t.number = number →
      patchFirstTask number p now (pre ++ t :: post) =
        pre ++ t.applyPatch p now :: post := by
  intro pre
  induction pre with
  | nil =>
    intro t post _ ht
    simp [patchFirstTask, ht]
  | cons u pre ih =>
    intro t post h ht
    have hu : u.number ≠ number := h u (by simp)
    simp only [List.cons_append, patchFirstTask, if_neg hu]
    exact congrArg (List.cons u) (ih t post (fun v hv => h v (by simp [hv])) ht)

theorem find?_first_match {α : Type} (p : α → Bool) :
    ∀ (pre : List α) (c : α) (post : List α),
      (∀ e ∈ pre, p e = false) → p c = true →
      (pre ++ c :: post).find? p = some c := by
  intro pre
  induction pre with
  | nil => intro c post _ hc; simp [List.find?, hc]
  | cons e pre ih =>
    intro c post h hc
    have he : p e = false := h e (by simp)
    simp only [List.cons_append, List.find?, he]
    exact ih c post (fun x hx => h x (by simp [hx])) hc

theorem find?_no_match {α : Type} (p : α → Bool) :
    ∀ l : List α, (∀ e ∈ l, p e = false) → l.find? p = none := by
  intro l
  induction l with
  | nil => intro _; rfl
  | cons e l ih =>
    intro h
    have he : p e = false := h e (by simp)
    simp only [List.find?, he]
    exact ih (fun x hx => h x (by simp [hx]))

/-! ## Claims -/

/-- C10: calling `generateVideos` with an empty `numbers` array behaves
exactly like omitting `numbers`: the empty list fails the
`numbers?.length` truthiness check, the identity filter is skipped, and
every task whose status is `等待中` or `失败` is selected. -/
theorem C10_empty_numbers_selects_all (envKey : Option String) (data : AppData)
    (submitO : VideoTask → Except String SubmitResponse)
    (pollO : VideoTask → Nat → Except String PollResponse)
    (downloadO : VideoTask → String → Except String (String × String)) :
    selectTargets (some []) data.videoTasks = selectTargets none data.videoTasks ∧
    selectTargets none data.videoTasks = data.videoTasks.filter eligibleStatus ∧
    generateVideos envKey data (some []) submitO pollO downloadO =
      generateVideos envKey data none submitO pollO downloadO := by
  refine ⟨rfl, rfl, ?_⟩
  simp [generateVideos, selectTargets]

/-- C1: the set of tasks processed by `generateVideos` is exactly the
requested tasks (all tasks when no non-empty list is given) whose status
is `等待中` or `失败`; when that eligible set is empty the call returns
`{ success: false, message: '没有需要生成的视频任务' }` without resolving a
credential, making any network call, or writing to the store. -/
theorem C1_task_selection (envKey : Option String) (data : AppData)
    (numbers : Option (List String))
    (submitO : VideoTask → Except String SubmitResponse)
    (pollO : VideoTask → Nat → Except String PollResponse)
    (downloadO : VideoTask → String → Except String (String × String)) :
    (∀ t : VideoTask, t ∈ selectTargets numbers data.videoTasks ↔
      (t ∈ data.videoTasks ∧
        (∀ ns, numbers = some ns → ns ≠ [] → t.number ∈ ns) ∧
        (t.status = "等待中" ∨ t.status = "失败"))) ∧
    (selectTargets numbers data.videoTasks = [] →
      generateVideos envKey data numbers submitO pollO downloadO =
        { result := .failure "没有需要生成的视频任务", pickedKey := false,
          taskRuns := [] }) ∧
    (∀ kp, selectTargets numbers data.videoTasks ≠ [] →
      pickVideoApiKey envKey data = some kp →
      (generateVideos envKey data numbers submitO pollO downloadO).taskRuns =
        (selectTargets numbers data.videoTasks).map (fun t =>
          (t.number, processVideoTask (submitO t) (pollO t) (downloadO t)))) := by
  refine ⟨?_, ?_, ?_⟩
  · intro t
    constructor
    · intro h
      simp only [selectTargets, List.mem_filter] at h
      obtain ⟨hmem, helig⟩ := h
      have helig' : t.status = "等待中" ∨ t.status = "失败" := by
        simpa [eligibleStatus, decide_eq_true_iff] using helig
      refine ⟨?_, ?_, helig'⟩
      · cases numbers with
        | none => exact hmem
        | some ns =>
          by_cases hlen : ns.length ≠ 0
          · simp only [if_pos hlen, List.mem_filter] at hmem
            exact hmem.1
          · have hns : ns = [] := List.length_eq_zero.mp (not_not.mp hlen)
            subst hns
            simpa using hmem
      · intro ns hns hne
        subst hns
        have hlen : ns.length ≠ 0 := by
          intro h0
          exact hne (List.length_eq_zero.mp h0)
        simp only [if_pos hlen, List.mem_filter] at hmem
        exact List.elem_iff.mp hmem.2
    · rintro ⟨hmem, hnum, helig⟩
      simp only [selectTargets, List.mem_filter]
      refine ⟨?_, by simpa [eligibleStatus, decide_eq_true_iff] using helig⟩
      cases numbers with
      | none => exact hmem
      | some ns =>
        by_cases hlen : ns.length ≠ 0
        · simp only [if_pos hlen, List.mem_filter]
          have hne : ns ≠ [] := by
            intro h0; rw [h0] at hlen; exact hlen rfl
          exact ⟨hmem, List.elem_iff.mpr (hnum ns rfl hne)⟩
        · have hns : ns = [] := List.length_eq_zero.mp (not_not.mp hlen)
          subst hns
          simpa using hmem
  · intro hsel
    simp [generateVideos, hsel]
  · intro kp hne hkey
    simp [generateVideos, List.isEmpty_iff, hne, hkey]

/-- C1 witness: with one succeeded task and no request list the eligible
set is empty and `generateVideos` is the documented no-op. -/
theorem C1_task_selection_witness :
    generateVideos none
      { videoTasks := [{ number := "1", prompt := "p", status := "成功" }] } none
      (fun _ => .error "no-net") (fun _ _ => .error "no-net")
      (fun _ _ => .error "no-net") =
      { result := .failure "没有需要生成的视频任务", pickedKey := false,
        taskRuns := [] } :=
  (C1_task_selection none
      { videoTasks := [{ number := "1", prompt := "p", status := "成功" }] } none
      (fun _ => .error "no-net") (fun _ _ => .error "no-net")
      (fun _ _ => .error "no-net")).2.1 (by decide)

/-- C3: `pickVideoApiKey` resolves in the exact priority order
environment key, then `videoSettings.apiKey`, then the first key-library
entry with a recognised platform alias, each later source consulted only
when every earlier one is absent or blank after trimming; when none
yields a key, `generateVideos` aborts with the thrown error and performs
no store write. -/
theorem C3_key_priority (envKey : Option String) (data : AppData) :
    (jsTrim (envKey.getD "") ≠ "" →
      pickVideoApiKey envKey data = some (jsTrim (envKey.getD ""), "environment")) ∧
    (jsTrim (envKey.getD "") = "" →
      jsTrim (data.videoSettings.apiKey.getD "") ≠ "" →
      pickVideoApiKey envKey data =
        some (jsTrim (data.videoSettings.apiKey.getD ""), "videoSettings")) ∧
    (jsTrim (envKey.getD "") = "" →
      jsTrim (data.videoSettings.apiKey.getD "") = "" →
      (∀ pre c post, data.keyLibrary = pre ++ c :: post →
        (∀ e ∈ pre, kieMatch e = false) → kieMatch c = true →
        pickVideoApiKey envKey data = some (c.apiKey, c.name)) ∧
      ((∀ e ∈ data.keyLibrary, kieMatch e = false) →
        pickVideoApiKey envKey data = none)) ∧
    (∀ numbers submitO pollO downloadO,
      selectTargets numbers data.videoTasks ≠ [] →
      pickVideoApiKey envKey data = none →
      generateVideos envKey data numbers submitO pollO downloadO =
        { result := .thrown "未配置 KIE.AI 的 API 密钥", pickedKey := true,
          taskRuns := [] }) := by
  have hemp : ∀ s : String, s ≠ "" → s.isEmpty = false := by
    intro s hs
    cases he : s.isEmpty with
    | false => rfl
    | true => exact absurd ((String.isEmpty_iff s).mp he) hs
  have hemp' : ∀ s : String, s = "" → s.isEmpty = true := by
    intro s hs; rw [hs]; rfl
  refine ⟨?_, ?_, ?_, ?_⟩
  · intro henv
    simp [pickVideoApiKey, hemp _ henv]
  · intro henv hvs
    simp [pickVideoApiKey, hemp' _ henv, hemp _ hvs]
  · intro henv hvs
    constructor
    · intro pre c post hlib hpre hc
      simp only [pickVideoApiKey, hemp' _ henv, hemp' _ hvs, Bool.not_true,
        Bool.false_eq_true, if_false, hlib]
      rw [find?_first_match kieMatch pre c post hpre hc]
    · intro hall
      simp only [pickVideoApiKey, hemp' _ henv, hemp' _ hvs, Bool.not_true,
        Bool.false_eq_true, if_false]
      rw [find?_no_match kieMatch data.keyLibrary hall]
  · intro numbers submitO pollO downloadO hne hkey
    simp [generateVideos, List.isEmpty_iff, hne, hkey]

/-- C3 witness: with a blank environment key and blank settings key, the
first library entry whose platform matches an alias (case-insensitively)
supplies the credential. -/
theorem C3_key_priority_witness :
    pickVideoApiKey (some "  ")
      { videoSettings := { apiKey := some "" },
        keyLibrary := [{ name := "other", platform := some "openai", apiKey := "o" },
                       { name := "kie-entry", platform := some "KIE.AI", apiKey := "sek" }] } =
      some ("sek", "kie-entry") := by
  have h := (C3_key_priority (some "  ")
    { videoSettings := { apiKey := some "" },
      keyLibrary := [{ name := "other", platform := some "openai", apiKey := "o" },
                     { name := "kie-entry", platform := some "KIE.AI", apiKey := "sek" }]
      }).2.2.1 (by decide) (by decide)
  exact h.1 [{ name := "other", platform := some "openai", apiKey := "o" }]
    { name := "kie-entry", platform := some "KIE.AI", apiKey := "sek" } [] rfl
    (by decide) (by decide)

/-- C8: `updateVideoTask(number, patch)` patches only the first task whose
`number` matches, giving it exactly the fields of the patch plus a fresh
`updatedAt`; every other task record, every unnamed field of the matched
task, and every non-task part of the app data are unchanged, and a call
with no matching task leaves the task collection untouched (and raises no
error — the function is total). -/
theorem C8_update_frame (store : AppData) (number : String)
    (p : VideoTaskPatch) (now : String) :
    (updateVideoTask store number p now).apiSettings = store.apiSettings ∧
    (updateVideoTask store number p now).videoSettings = store.videoSettings ∧
    (updateVideoTask store number p now).keyLibrary = store.keyLibrary ∧
    ((∀ t ∈ store.videoTasks, t.number ≠ number) →
      updateVideoTask store number p now = store) ∧
    (∀ pre t post, store.videoTasks = pre ++ t :: post →
      (∀ u ∈ pre, u.number ≠ number) → t.number = number →
      (updateVideoTask store number p now).videoTasks =
        pre ++ t.applyPatch p now :: post) ∧
    (∀ t : VideoTask,
      (t.applyPatch p now).updatedAt = now ∧
      (p.number = none → (t.applyPatch p now).number = t.number) ∧
      (p.prompt = none → (t.applyPatch p now).prompt = t.prompt) ∧
      (p.imageUrls = none → (t.applyPatch p now).imageUrls = t.imageUrls) ∧
      (p.status = none → (t.applyPatch p now).status = t.status) ∧
      (∀ v, p.status = some v → (t.applyPatch p now).status = v) ∧
      (p.progress = none → (t.applyPatch p now).progress = t.progress) ∧
      (∀ v, p.progress = some v → (t.applyPatch p now).progress = some v) ∧
      (p.errorMsg = none → (t.applyPatch p now).errorMsg = t.errorMsg) ∧
      (∀ v, p.errorMsg = some v → (t.applyPatch p now).errorMsg = some v) ∧
      (p.localPath = none → (t.applyPatch p now).localPath = t.localPath) ∧
      (∀ v, p.localPath = some v → (t.applyPatch p now).localPath = some v) ∧
      (p.remoteUrl = none → (t.applyPatch p now).remoteUrl = t.remoteUrl) ∧
      (∀ v, p.remoteUrl = some v → (t.applyPatch p now).remoteUrl = some v) ∧
      (p.actualFilename = none →
        (t.applyPatch p now).actualFilename = t.actualFilename) ∧
      (∀ v, p.actualFilename = some v →
        (t.applyPatch p now).actualFilename = some v)) := by
  refine ⟨rfl, rfl, rfl, ?_, ?_, ?_⟩
  · intro h
    have : patchFirstTask number p now store.videoTasks = store.videoTasks :=
      patchFirstTask_no_match number p now store.videoTasks h
    simp [updateVideoTask, updateAppData, updateVideoTaskMutator, this]
  · intro pre t post hsplit hpre ht
    simp only [updateVideoTask, updateAppData, updateVideoTaskMutator, hsplit]
    exact patchFirstTask_first_match number p now pre t post hpre ht
  · intro t
    refine ⟨rfl, ?_, ?_, ?_, ?_, ?_, ?_, ?_, ?_, ?_, ?_, ?_, ?_, ?_, ?_, ?_⟩ <;>
      first
        | (intro h; simp [VideoTask.applyPatch, patched, h])
        | (intro v h; simp [VideoTask.applyPatch, patched, h])

/-- C8 witness: patching task `2` in a two-task store updates only the
second record (the first carries a different number) and stamps its
`updatedAt`. -/
theorem C8_update_frame_witness :
    (updateVideoTask
        { videoTasks := [{ number := "1", prompt := "a", status := "成功" },
                         { number := "2", prompt := "b", status := "等待中" }] }
        "2" { status := some "生成中", progress := some 5 } "T").videoTasks =
      [{ number := "1", prompt := "a", status := "成功" },
       ({ number := "2", prompt := "b", status := "等待中" } :
          VideoTask).applyPatch { status := some "生成中", progress := some 5 } "T"] :=
  (C8_update_frame
      { videoTasks := [{ number := "1", prompt := "a", status := "成功" },
                       { number := "2", prompt := "b", status := "等待中" }] }
      "2" { status := some "生成中", progress := some 5 } "T").2.2.2.2.1
    [{ number := "1", prompt := "a", status := "成功" }]
    { number := "2", prompt := "b", status := "等待中" } [] rfl (by decide) rfl

theorem errorText_append_left (a b : String) (ha : a ≠ "") :
    errorText (a ++ b) = a ++ b := by
  have hne : (a ++ b) ≠ "" := by
    intro h
    have hlen := congrArg String.length h
    rw [String.length_append] at hlen
    have ha0 : a.length ≠ 0 := by
      intro h0
      exact ha (String.ext (List.length_eq_zero.mp h0))
    simp at hlen
    omega
  have : (a ++ b).isEmpty = false := by
    cases he : (a ++ b).isEmpty with
    | false => rfl
    | true => exact absurd ((String.isEmpty_iff (a ++ b)).mp he) hne
  simp [errorText, this]

/-- C6: a submit response without a truthy `data.taskId` fails the task
directly — status `失败` with an error message embedding the raw response
truncated to 500 characters — and no poll request is made. -/
theorem C6_missing_taskId (resp : SubmitResponse)
    (polls : Nat → Except String PollResponse)
    (download : String → Except String (String × String))
    (t : VideoTask) (now : String)
    (ht : jsTruthy resp.taskId = false) :
    processVideoTask (.ok resp) polls download =
      { updates := [startPatch, failPatch (noTaskIdMsg resp.raw)], pollCalls := 0 } ∧
    noTaskIdMsg resp.raw = "生成接口未返回 taskId。响应结构: " ++ resp.raw.take 500 ∧
    (processVideoTask (.ok resp) polls download).pollCalls = 0 ∧
    (applyUpdates t (processVideoTask (.ok resp) polls download).updates now).status =
      "失败" ∧
    (applyUpdates t (processVideoTask (.ok resp) polls download).updates now).errorMsg =
      some (noTaskIdMsg resp.raw) := by
  have hrun : processVideoTask (.ok resp) polls download =
      { updates := [startPatch, failPatch (noTaskIdMsg resp.raw)], pollCalls := 0 } := by
    simp [processVideoTask, ht]
  have htext : errorText (noTaskIdMsg resp.raw) = noTaskIdMsg resp.raw :=
    errorText_append_left "生成接口未返回 taskId。响应结构: " (resp.raw.take 500)
      (by decide)
  refine ⟨hrun, rfl, by rw [hrun], ?_, ?_⟩ <;>
    rw [hrun] <;>
    simp [applyUpdates, VideoTask.applyPatch, patched, startPatch, failPatch, htext]

/-- C6 witness: a submit response whose `data` holds no `taskId` produces
exactly the two writes (initial + failure) and zero poll calls. -/
theorem C6_missing_taskId_witness :
    processVideoTask (.ok { taskId := none, raw := "resp-body" })
        (fun _ => .error "unused") (fun _ => .error "unused") =
      { updates := [startPatch, failPatch (noTaskIdMsg "resp-body")],
        pollCalls := 0 } :=
  (C6_missing_taskId { taskId := none, raw := "resp-body" }
      (fun _ => .error "unused") (fun _ => .error "unused")
      { number := "1", prompt := "p", status := "等待中" } "T" (by decide)).1

/-- C5 counterexample: a constant 404 response is retried — `fetchJson`
makes all 3 attempts rather than failing on the first attempt with no
retry as the claim states (the thrown `HTTP 4xx` error is caught by the
generic handler, which backs off and retries while `attempt < retries`). -/
theorem C5_counterexample :
    (fetchJson (fun _ => .resolved 404 "nf") 900000 3).calls = 3 ∧
    (3 : Nat) ≠ 1 := by
  constructor
  · rfl
  · decide

/-- C5 amended: a 4xx response (non-2xx/3xx, not 5xx, not a timeout, not
a connection reset) is retried like a generic error — up to the attempt
budget of 3 with linear backoff — and after the final attempt `fetchJson`
throws an error embedding the HTTP status code and the response body. -/
theorem C5_4xx_retried_then_thrown (oracle : Nat → AxiosResult)
    (s : Nat) (body : String) (timeoutMs : Nat)
    (hresp : ∀ i, oracle i = .resolved s body) (h4 : 400 ≤ s) :
    fetchJson oracle timeoutMs 3 =
      { result := .error s!"HTTP {s}: {body}", calls := 3 } := by
  have step : ∀ fuel attempt le,
      fetchJsonLoop oracle timeoutMs 3 (fuel + 1) attempt le =
        if attempt < 3 then
          (fetchJsonLoop oracle timeoutMs 3 fuel (attempt + 1)
            (some s!"HTTP {s}: {body}")).afterRetry
        else { result := .error s!"HTTP {s}: {body}", calls := 1 } := by
    intro fuel attempt le
    simp only [fetchJsonLoop, hresp attempt, ge_iff_le]
    rw [if_pos h4]
  show fetchJsonLoop oracle timeoutMs 3 (2 + 1) 1 none = _
  rw [step 2 1 none, if_pos (by norm_num)]
  show (fetchJsonLoop oracle timeoutMs 3 (1 + 1) 2 _).afterRetry = _
  rw [step 1 2 _, if_pos (by norm_num)]
  show ((fetchJsonLoop oracle timeoutMs 3 (0 + 1) 3 _).afterRetry).afterRetry = _
  rw [step 0 3 _, if_neg (by norm_num)]
  rfl

/-- C5 amended witness: the concrete constant-404 oracle exercises the
amended statement. -/
theorem C5_4xx_retried_then_thrown_witness :
    fetchJson (fun _ => .resolved 404 "nf") 900000 3 =
      { result := .error "HTTP 404: nf", calls := 3 } := by
  have h := C5_4xx_retried_then_thrown (fun _ => .resolved 404 "nf") 404 "nf"
    900000 (fun _ => rfl) (by norm_num)
  simpa using h

theorem pollLoop_timeout (polls : Nat → Except String PollResponse)
    (download : String → Except String (String × String)) :
    ∀ fuel pc : Nat,
      (∀ n, pc < n → n ≤ pc + fuel → stillProcessingE (polls n)) →
      (pollLoop polls download fuel pc).outcome = some pollTimeoutMsg ∧
      (pollLoop polls download fuel pc).calls = fuel := by
  intro fuel
  induction fuel with
  | zero => intro pc _; exact ⟨rfl, rfl⟩
  | succ fuel ih =>
    intro pc h
    obtain ⟨resp, hr, hsp⟩ := h (pc + 1) (by omega) (by omega)
    have hrest := ih (pc + 1) (fun n h1 h2 => h n (by omega) (by omega))
    simp only [pollLoop, hr]
    by_cases hc : resp.code = some 200
    · rcases hsp with hc' | ⟨hflag, herr⟩
      · exact absurd hc hc'
      · rw [if_neg (not_not_intro hc), if_neg hflag, if_neg (by simp [herr])]
        simp [PollLoopRun.afterIteration, hrest.1, hrest.2]
    · rw [if_pos hc]
      simp [PollLoopRun.afterIteration, hrest.1, hrest.2]

/-- C2: when every one of the 120 polls (5-second interval) returns a
response that reports neither success (`successFlag === 1`) nor an
explicit provider error message, the task ends with status `失败` and the
polling-timeout message as its `errorMsg`; the failure is absorbed inside
`processVideoTask` (its trace is total — the last write is the failure
write, nothing propagates). -/
theorem C2_poll_budget_timeout (resp : SubmitResponse)
    (polls : Nat → Except String PollResponse)
    (download : String → Except String (String × String))
    (t : VideoTask) (now : String)
    (ht : jsTruthy resp.taskId = true)
    (hp : ∀ n, 1 ≤ n → n ≤ maxPollTimes → stillProcessingE (polls n)) :
    (processVideoTask (.ok resp) polls download).pollCalls = maxPollTimes ∧
    maxPollTimes = 120 ∧ pollInterval = 5000 ∧
    (∃ us, (processVideoTask (.ok resp) polls download).updates =
      us ++ [failPatch pollTimeoutMsg]) ∧
    pollTimeoutMsg = "轮询超时，未在预期时间内完成视频生成" ∧
    (applyUpdates t (processVideoTask (.ok resp) polls download).updates now).status =
      "失败" ∧
    (applyUpdates t (processVideoTask (.ok resp) polls download).updates now).errorMsg =
      some pollTimeoutMsg := by
  obtain ⟨houtcome, hcalls⟩ := pollLoop_timeout polls download maxPollTimes 0
    (fun n h1 h2 => hp n (by omega) (by omega))
  have hrun : processVideoTask (.ok resp) polls download =
      { updates := startPatch :: submittedPatch ::
          ((pollLoop polls download maxPollTimes 0).updates ++
            [failPatch pollTimeoutMsg]),
        pollCalls := maxPollTimes } := by
    simp [processVideoTask, ht, afterSubmitRun, houtcome, hcalls]
  have hlist : startPatch :: submittedPatch ::
      ((pollLoop polls download maxPollTimes 0).updates ++
        [failPatch pollTimeoutMsg]) =
      (startPatch :: submittedPatch ::
        (pollLoop polls download maxPollTimes 0).updates) ++
        [failPatch pollTimeoutMsg] := by
    simp
  have htext : errorText pollTimeoutMsg = pollTimeoutMsg := by decide
  refine ⟨by rw [hrun], rfl, rfl, ?_, rfl, ?_, ?_⟩
  · exact ⟨startPatch :: submittedPatch ::
      (pollLoop polls download maxPollTimes 0).updates, by rw [hrun, hlist]⟩
  · rw [hrun, hlist, applyUpdates_append]
    simp [applyUpdates, VideoTask.applyPatch, patched, failPatch, htext]
  · rw [hrun, hlist, applyUpdates_append]
    simp [applyUpdates, VideoTask.applyPatch, patched, failPatch, htext]

/-- C2 witness: polls that always answer `code: 500` exhaust the budget
and leave the task failed with the timeout message. -/
theorem C2_poll_budget_timeout_witness :
    (processVideoTask (.ok { taskId := some "tid", raw := "r" })
        (fun _ => .ok { code := some 500 }) (fun _ => .error "unused")).pollCalls =
      maxPollTimes ∧
    (applyUpdates { number := "1", prompt := "p", status := "等待中" }
        (processVideoTask (.ok { taskId := some "tid", raw := "r" })
          (fun _ => .ok { code := some 500 }) (fun _ => .error "unused")).updates
        "T").status = "失败" := by
  have h := C2_poll_budget_timeout { taskId := some "tid", raw := "r" }
    (fun _ => .ok { code := some 500 }) (fun _ => .error "unused")
    { number := "1", prompt := "p", status := "等待中" } "T" (by decide)
    (fun n _ _ => ⟨{ code := some 500 }, rfl, Or.inl (by decide)⟩)
  exact ⟨h.1, h.2.2.2.2.2.1⟩

theorem pollLoop_success (polls : Nat → Except String PollResponse)
    (download : String → Except String (String × String))
    (m : Nat) (respm : PollResponse) (u : String) (tail : List String)
    (lp fn : String)
    (hpm : polls m = .ok respm) (hcode : respm.code = some 200)
    (hflag : (respm.data.getD {}).successFlag = some 1)
    (hurls : (respm.data.getD {}).resultUrls.getD [] = u :: tail)
    (hdl : download u = .ok (lp, fn)) :
    ∀ fuel pc : Nat, pc < m → m ≤ pc + fuel →
      (∀ i, pc < i → i < m → stillProcessingE (polls i)) →
      ∃ us, pollLoop polls download fuel pc =
        { updates := us ++ [downloadingPatch, successPatch lp u fn],
          calls := m - pc, outcome := none } := by
  intro fuel
  induction fuel with
  | zero => intro pc h1 h2 _; omega
  | succ fuel ih =>
    intro pc h1 h2 hbetween
    by_cases hm : pc + 1 = m
    · refine ⟨[], ?_⟩
      have hmpc : m - pc = 1 := by omega
      simp only [pollLoop, hm, hpm, if_neg (not_not_intro hcode), if_pos hflag,
        hurls, hdl, hmpc, List.nil_append]
    · have hm' : pc + 1 < m := by omega
      obtain ⟨resp, hr, hsp⟩ := hbetween (pc + 1) (by omega) hm'
      obtain ⟨us, hrec⟩ := ih (pc + 1) hm' (by omega)
        (fun i hi1 hi2 => hbetween i (by omega) hi2)
      by_cases hc : resp.code = some 200
      · rcases hsp with hc' | ⟨hflag', herr'⟩
        · exact absurd hc hc'
        · refine ⟨pollProgressPatch (pc + 1) :: us, ?_⟩
          simp only [pollLoop, hr, if_neg (not_not_intro hc), if_neg hflag',
            if_neg (by simp [herr'] : ¬jsTruthy (resp.data.getD {}).errorMessage = true),
            hrec, PollLoopRun.afterIteration]
          refine congrArg₂ (fun a b => PollLoopRun.mk a b none) (by simp) (by omega)
      · refine ⟨pollWaitPatch (pc + 1) :: us, ?_⟩
        simp only [pollLoop, hr, if_pos hc, hrec, PollLoopRun.afterIteration]
        refine congrArg₂ (fun a b => PollLoopRun.mk a b none) (by simp) (by omega)

/-- C4: when some poll reports success (`successFlag === 1`) with at
least one result URL and the download succeeds, the final persisted
record has status `成功`, progress 100, `localPath`/`actualFilename` from
the download, `remoteUrl` the first result URL, and `errorMsg` cleared to
the empty string. -/
theorem C4_success_final_state (resp : SubmitResponse)
    (polls : Nat → Except String PollResponse)
    (download : String → Except String (String × String))
    (t : VideoTask) (now : String)
    (m : Nat) (respm : PollResponse) (u : String) (tail : List String)
    (lp fn : String)
    (ht : jsTruthy resp.taskId = true)
    (hm1 : 1 ≤ m) (hm : m ≤ maxPollTimes)
    (hearly : ∀ i, 1 ≤ i → i < m → stillProcessingE (polls i))
    (hpm : polls m = .ok respm) (hcode : respm.code = some 200)
    (hflag : (respm.data.getD {}).successFlag = some 1)
    (hurls : (respm.data.getD {}).resultUrls.getD [] = u :: tail)
    (hdl : download u = .ok (lp, fn)) :
    (applyUpdates t (processVideoTask (.ok resp) polls download).updates now).status =
      "成功" ∧
    (applyUpdates t (processVideoTask (.ok resp) polls download).updates now).progress =
      some 100 ∧
    (applyUpdates t (processVideoTask (.ok resp) polls download).updates now).localPath =
      some lp ∧
    (applyUpdates t (processVideoTask (.ok resp) polls download).updates
        now).actualFilename = some fn ∧
    (applyUpdates t (processVideoTask (.ok resp) polls download).updates now).remoteUrl =
      some u ∧
    (applyUpdates t (processVideoTask (.ok resp) polls download).updates now).errorMsg =
      some "" ∧
    (processVideoTask (.ok resp) polls download).pollCalls = m := by
  obtain ⟨us, hloop⟩ := pollLoop_success polls download m respm u tail lp fn
    hpm hcode hflag hurls hdl maxPollTimes 0 (by omega) (by omega)
    (fun i hi1 hi2 => hearly i (by omega) hi2)
  have hrun : processVideoTask (.ok resp) polls download =
      { updates := startPatch :: submittedPatch ::
          (us ++ [downloadingPatch, successPatch lp u fn]),
        pollCalls := m } := by
    simp [processVideoTask, ht, afterSubmitRun, hloop]
  have hlist : startPatch :: submittedPatch ::
      (us ++ [downloadingPatch, successPatch lp u fn]) =
      (startPatch :: submittedPatch :: us ++ [downloadingPatch]) ++
        [successPatch lp u fn] := by
    simp
  refine ⟨?_, ?_, ?_, ?_, ?_, ?_, by rw [hrun]⟩ <;>
    rw [hrun, hlist, applyUpdates_append] <;>
    simp [applyUpdates, VideoTask.applyPatch, patched, successPatch]

/-- A concrete poll response reporting immediate success with one URL,
used by the C4 witness. -/
def successPollResp : PollResponse :=
  { code := some 200,
    data := some { successFlag := some 1, resultUrls := some ["u1"] } }

/-- A concrete always-successful download oracle, used by the C4 witness. -/
def successDownloadW : String → Except String (String × String) :=
  fun _ => .ok ("files/v.mp4", "v.mp4")

/-- A concrete waiting task, used by witnesses. -/
def waitingTaskW : VideoTask :=
  { number := "1", prompt := "p", status := "等待中" }

/-- C4 witness: a first-poll success with one URL and a successful
download finishes the task as `成功` with progress 100. -/
theorem C4_success_final_state_witness :
    (applyUpdates waitingTaskW
        (processVideoTask (.ok { taskId := some "tid", raw := "r" })
          (fun _ => .ok successPollResp) successDownloadW).updates "T").status =
      "成功" ∧
    (applyUpdates waitingTaskW
        (processVideoTask (.ok { taskId := some "tid", raw := "r" })
          (fun _ => .ok successPollResp) successDownloadW).updates "T").progress =
      some 100 := by
  have h := C4_success_final_state { taskId := some "tid", raw := "r" }
    (fun _ => .ok successPollResp) successDownloadW waitingTaskW "T"
    1 successPollResp "u1" [] "files/v.mp4" "v.mp4"
    (by decide) (by omega) (by decide) (fun i hi1 hi2 => absurd hi2 (by omega))
    rfl rfl rfl rfl rfl
  exact ⟨h.1, h.2.1⟩

theorem progressWrites_cons_none (p : VideoTaskPatch) (ps : List VideoTaskPatch)
    (h : p.progress = none) : progressWrites (p :: ps) = progressWrites ps := by
  simp [progressWrites, List.filterMap_cons, h]

theorem progressWrites_cons_some (p : VideoTaskPatch) (ps : List VideoTaskPatch)
    (v : Nat) (h : p.progress = some v) :
    progressWrites (p :: ps) = v :: progressWrites ps := by
  simp [progressWrites, List.filterMap_cons, h]

theorem progressWrites_append (ps qs : List VideoTaskPatch) :
    progressWrites (ps ++ qs) = progressWrites ps ++ progressWrites qs := by
  simp [progressWrites]

theorem pollLoop_progress_chain (polls : Nat → Except String PollResponse)
    (download : String → Except String (String × String)) :
    ∀ fuel pc : Nat,
      List.Chain' (· ≤ ·) (progressWrites (pollLoop polls download fuel pc).updates) ∧
      ∀ x ∈ progressWrites (pollLoop polls download fuel pc).updates,
        min 90 (15 + (pc + 1) * 2) ≤ x ∧ x ≤ 100 := by
  intro fuel
  induction fuel with
  | zero =>
    intro pc
    exact ⟨by simp [pollLoop, progressWrites], by simp [pollLoop, progressWrites]⟩
  | succ fuel ih =>
    intro pc
    rcases hr : polls (pc + 1) with e | resp
    · exact ⟨by simp [pollLoop, hr, progressWrites],
        by simp [pollLoop, hr, progressWrites]⟩
    · by_cases hc : resp.code = some 200
      · by_cases hflag : (resp.data.getD {}).successFlag = some 1
        · rcases hurl : (resp.data.getD {}).resultUrls.getD [] with _ | ⟨u, us'⟩
          · constructor <;>
              simp [pollLoop, hr, if_neg (not_not_intro hc), if_pos hflag, hurl,
                progressWrites, downloadingPatch]
          · rcases hdl : download u with e | pr
            · constructor <;>
                simp [pollLoop, hr, if_neg (not_not_intro hc), if_pos hflag, hurl,
                  hdl, progressWrites, downloadingPatch]
            · obtain ⟨lp, fn⟩ := pr
              constructor <;>
                simp [pollLoop, hr, if_neg (not_not_intro hc), if_pos hflag, hurl,
                  hdl, progressWrites, downloadingPatch, successPatch]
        · by_cases herr : jsTruthy (resp.data.getD {}).errorMessage = true
          · exact ⟨by simp [pollLoop, hr, if_neg (not_not_intro hc), if_neg hflag,
              if_pos herr, progressWrites],
              by simp [pollLoop, hr, if_neg (not_not_intro hc), if_neg hflag,
                if_pos herr, progressWrites]⟩
          · obtain ⟨ihc, ihb⟩ := ih (pc + 1)
            have hpw : progressWrites (pollLoop polls download (fuel + 1) pc).updates =
                min 90 (15 + (pc + 1) * 2) ::
                  progressWrites (pollLoop polls download fuel (pc + 1)).updates := by
              simp only [pollLoop, hr, if_neg (not_not_intro hc), if_neg hflag,
                if_neg herr, PollLoopRun.afterIteration]
              exact progressWrites_cons_some _ _ _ rfl
            constructor
            · rw [hpw, List.chain'_cons']
              refine ⟨?_, ihc⟩
              intro b hb
              have := (ihb b (List.mem_of_mem_head? hb)).1
              omega
            · intro x hx
              rw [hpw] at hx
              rcases List.mem_cons.mp hx with h | h
              · subst h; omega
              · have := ihb x h; omega
      · obtain ⟨ihc, ihb⟩ := ih (pc + 1)
        have hpw : progressWrites (pollLoop polls download (fuel + 1) pc).updates =
            progressWrites (pollLoop polls download fuel (pc + 1)).updates := by
          simp only [pollLoop, hr, if_pos hc, PollLoopRun.afterIteration]
          exact progressWrites_cons_none _ _ rfl
        refine ⟨by rw [hpw]; exact ihc, ?_⟩
        intro x hx
        rw [hpw] at hx
        have := ihb x hx
        omega

/-- C7: within one `processVideoTask` run, the written progress values
(5, then 15, then `min(90, 15 + 2·pollCount)` per counted poll, then 95,
then 100) are monotonically non-decreasing and stay within 0–100, and
the failure write carries no progress value. -/
theorem C7_progress_monotone (submit : Except String SubmitResponse)
    (polls : Nat → Except String PollResponse)
    (download : String → Except String (String × String)) :
    List.Chain' (· ≤ ·)
      (progressWrites (processVideoTask submit polls download).updates) ∧
    (∀ x ∈ progressWrites (processVideoTask submit polls download).updates,
      x ≤ 100) ∧
    (∀ m, (failPatch m).progress = none) := by
  rcases submit with e | resp
  · refine ⟨?_, ?_, fun m => rfl⟩ <;>
      simp [processVideoTask, progressWrites, startPatch, failPatch]
  · by_cases ht : jsTruthy resp.taskId = true
    · obtain ⟨lc, lb⟩ := pollLoop_progress_chain polls download maxPollTimes 0
      have hpw : progressWrites (processVideoTask (.ok resp) polls download).updates =
          5 :: 15 :: progressWrites (pollLoop polls download maxPollTimes 0).updates := by
        rcases ho : (pollLoop polls download maxPollTimes 0).outcome with _ | e
        · simp only [processVideoTask, ht, if_pos, afterSubmitRun, ho]
          rw [progressWrites_cons_some startPatch _ 5 rfl,
            progressWrites_cons_some submittedPatch _ 15 rfl]
        · simp only [processVideoTask, ht, if_pos, afterSubmitRun, ho]
          rw [progressWrites_cons_some startPatch _ 5 rfl,
            progressWrites_cons_some submittedPatch _ 15 rfl,
            progressWrites_append,
            progressWrites_cons_none (failPatch e) [] rfl]
          simp [progressWrites]
      refine ⟨?_, ?_, fun m => rfl⟩
      · rw [hpw, List.chain'_cons', List.chain'_cons']
        refine ⟨?_, ?_, lc⟩
        · intro b hb
          simp at hb
          omega
        · intro b hb
          have := (lb b (List.mem_of_mem_head? hb)).1
          omega
      · intro x hx
        rw [hpw] at hx
        rcases List.mem_cons.mp hx with h | hx'
        · omega
        rcases List.mem_cons.mp hx' with h | hx''
        · omega
        · exact (lb x hx'').2
    · have ht' : jsTruthy resp.taskId = false := by
        cases h : jsTruthy resp.taskId with
        | false => rfl
        | true => exact absurd h ht
      refine ⟨?_, ?_, fun m => rfl⟩ <;>
        simp [processVideoTask, ht', progressWrites, startPatch, failPatch]

end VideoGen
